import Mathlib

/-
Verification of the archy archiver (src/archy/runner.py) against its
specification. The runner scans a directory tree, archives files whose
ownership matches a group-membership policy into an append-mode tar file,
deletes the originals, and guards the whole run with a process lock and each
file with a per-file lock. External effects (filesystem, fasteners locks,
tarfile) are embedded as explicit data: each candidate carries the outcomes
of its external interactions, and the pipeline is a fold over the candidate
list.
-/

namespace Archy

/-- Mirrors the pydantic model Group (runner.py lines 19-25): a linux group
with numeric id, name, and member user names. -/
structure Group where
  id : Nat
  name : String
  members : List String
deriving Repr, DecidableEq

/-- A filesystem entry as the pipeline observes it: the absolute posix path,
the owning user (fl.owner()), the owning group name (fl.group()), and whether
it is a regular file (fl.is_file()). -/
structure FileCandidate where
  path : String
  owner : String
  groupName : String
  isFile : Bool
deriving Repr, DecidableEq

/-- Adapter from a grp.struct_group-shaped tuple (name, passwd, id, members)
to Group (runner.py lines 28-36). -/
def _linux_group_to_archy_group (name passwd : String) (id : Nat)
    (members : List String) : Group :=
  let _ := passwd
  { id := id, name := name, members := members }

/-- The ownership policy `_should_archive` (runner.py lines 311-322): archive
regular files owned by the group, or owned by a member user whose owning
group name equals that user's own name. -/
def _should_archive (fl : FileCandidate) (group : Group) : Bool :=
  let group_name := fl.groupName
  let user_name := fl.owner
  let is_file := fl.isFile
  let is_group_file := group_name == group.name
  let is_user_file := group.members.contains user_name && user_name == group_name
  is_file && (is_group_file || is_user_file)

/-- `_current_user_has_permissions` (runner.py lines 160-161). -/
def _current_user_has_permissions (user : String) : Bool :=
  user == "root"

/- ### Python %-formatting of the path templates -/

/-- Number of argument-consuming conversion specifiers in a template, in the
fragment of Python %-formatting the runner's templates use: every specifier
is %s, and %% is a literal percent sign. -/
def specifierCount : List Char → Nat
  | [] => 0
  | '%' :: '%' :: rest => specifierCount rest
  | '%' :: 's' :: rest => 1 + specifierCount rest
  | _ :: rest => specifierCount rest

/-- Substitute the argument for every %s specifier and collapse %% to %. -/
def substAll : List Char → String → List Char
  | [], _ => []
  | '%' :: '%' :: rest, a => '%' :: substAll rest a
  | '%' :: 's' :: rest, a => a.data ++ substAll rest a
  | c :: rest, a => c :: substAll rest a

/-- Python's `template % arg` for a single string argument, in the %s / %%
fragment: it succeeds exactly when the template has exactly one specifier to
consume the argument; zero specifiers raise TypeError (not all arguments
converted), and two or more raise TypeError (not enough arguments). -/
def pyPercentFormat (template arg : String) : Except Unit String :=
  if specifierCount template.data = 1 then Except.ok (String.mk (substAll template.data arg))
  else Except.error ()

/-- `_get_lockfile_name` (runner.py lines 201-205): `lockfile_base %
group_name`, returning the raw template when % raises TypeError. -/
def _get_lockfile_name (lockfile_base group_name : String) : String :=
  match pyPercentFormat lockfile_base group_name with
  | Except.ok s => s
  | Except.error _ => lockfile_base

/-- `_get_logfile_name` (runner.py lines 229-233). -/
def _get_logfile_name (logfile_base group_name : String) : String :=
  match pyPercentFormat logfile_base group_name with
  | Except.ok s => s
  | Except.error _ => logfile_base

/-- `_get_tarfile_name` (runner.py lines 261-265). -/
def _get_tarfile_name (tarfile_base group_name : String) : String :=
  match pyPercentFormat tarfile_base group_name with
  | Except.ok s => s
  | Except.error _ => tarfile_base

/-- Class-level template defaults (runner.py lines 43-45). -/
def LOCKFILE_BASE : String := "/var/run/archy-%s.lock"

def LOGFILE_BASE : String := "/var/log/archy.%s.log"

def TARFILE_BASE : String := "/tmp/archy-%s.tar"

/- ### Process lock -/

/-- State of `self.lock` together with the underlying fasteners lock:
`none` is Python's None, `unacquired` an InterProcessLock handle whose
acquire returned False, then acquired / released. -/
inductive ProcLockState where
  | none
  | unacquired
  | acquired
  | released
deriving Repr, DecidableEq

/-- fasteners InterProcessLock.release: raises (RuntimeError/ThreadError)
unless the lock is currently acquired. -/
def fastenersRelease : ProcLockState → Except Unit ProcLockState
  | ProcLockState.acquired => Except.ok ProcLockState.released
  | _ => Except.error ()

/-- `_acquire_process_lock` (runner.py lines 62-67): force mode returns True
without creating a handle (self.lock stays None); otherwise a handle is
created at `_get_lockfile_name` and a non-blocking acquire is attempted,
whose outcome is the `available` input. Returns (acquire result, resulting
lock state). -/
def _acquire_process_lock (force_archive : Bool) (available : Bool) :
    Bool × ProcLockState :=
  if force_archive then (true, ProcLockState.none)
  else if available then (true, ProcLockState.acquired)
  else (false, ProcLockState.unacquired)

/-- `_release_process_lock` (runner.py lines 303-309): release only when
self.lock is set, and swallow the RuntimeError raised when the lock was never
acquired. Total: it never raises. -/
def _release_process_lock (s : ProcLockState) : ProcLockState :=
  match s with
  | ProcLockState.none => ProcLockState.none
  | s' =>
    match fastenersRelease s' with
    | Except.ok s'' => s''
    | Except.error _ => s'

/- ### Per-file lock and the pipeline -/

/-- Timeout passed to the blocking per-file lock acquisition
(runner.py line 179). -/
def FILELOCK_TIMEOUT : Nat := 5

/-- `_get_filelock` (runner.py lines 175-181): blocking acquire with timeout
FILELOCK_TIMEOUT on a lock keyed by the file's own path;
`obtainedWithinTimeout` is whether the underlying acquire succeeded within
the wait. Returns the handle, or none on timeout. -/
def _get_filelock (filename : String) (obtainedWithinTimeout : Bool) :
    Option String :=
  if obtainedWithinTimeout then some filename else none

/-- `_get_filename` (runner.py lines 183-184): the candidate's absolute posix
path. -/
def _get_filename (fl : FileCandidate) : String :=
  fl.path

/-- Outcomes of the external interactions for one candidate:
whether resolving ownership inside `_should_archive` raises (fl.group() /
fl.owner() can raise KeyError or a filesystem error), whether the per-file
lock is obtained within the timeout, and whether the archive append (tar.add)
or the delete (unlink) raises. -/
structure FileEnv where
  resolveRaises : Bool
  lockAcquired : Bool
  archiveRaises : Bool
  deleteRaises : Bool
deriving Repr, DecidableEq

/-- What one iteration of the candidate loop did: count deltas, entries
appended to the open tar, paths unlinked, and whether the per-file lock was
acquired and released during the iteration. -/
structure StepOutcome where
  archivedDelta : Nat
  notTransferredDelta : Nat
  appendedEntries : List String
  deletedEntries : List String
  lockWasAcquired : Bool
  lockWasReleased : Bool
deriving Repr, DecidableEq

/-- The body of the per-candidate loop in `_archive_files_for_group`
(runner.py lines 87-143).
Branches, in source order:
the outer try catches an exception raised by `_should_archive` itself;
an eligible candidate whose lock is not obtained is skipped and counted
(lines 96-107); with the lock held, tar.add then unlink run inside a
try whose finally releases the lock on success and on failure, and any
exception is caught by the outer except which increments the
not-transferred count (lines 109-143). When unlink raises after a
successful tar.add, the entry stays appended but the file is not deleted
and the candidate is counted as not transferred. -/
def processCandidate (group : Group) (fl : FileCandidate) (env : FileEnv) :
    StepOutcome :=
  let filename := _get_filename fl
  if env.resolveRaises then
    { archivedDelta := 0, notTransferredDelta := 1, appendedEntries := [],
      deletedEntries := [], lockWasAcquired := false, lockWasReleased := false }
  else if _should_archive fl group then
    match _get_filelock filename env.lockAcquired with
    | none =>
      { archivedDelta := 0, notTransferredDelta := 1, appendedEntries := [],
        deletedEntries := [], lockWasAcquired := false, lockWasReleased := false }
    | some _ =>
      if env.archiveRaises then
        { archivedDelta := 0, notTransferredDelta := 1, appendedEntries := [],
          deletedEntries := [], lockWasAcquired := true, lockWasReleased := true }
      else if env.deleteRaises then
        { archivedDelta := 0, notTransferredDelta := 1,
          appendedEntries := [filename], deletedEntries := [],
          lockWasAcquired := true, lockWasReleased := true }
      else
        { archivedDelta := 1, notTransferredDelta := 0,
          appendedEntries := [filename], deletedEntries := [filename],
          lockWasAcquired := true, lockWasReleased := true }
  else
    { archivedDelta := 0, notTransferredDelta := 0, appendedEntries := [],
      deletedEntries := [], lockWasAcquired := false, lockWasReleased := false }

/-- Mutable state of `_archive_files_for_group`: the two counters, the
entries of the open tar, and the paths unlinked so far. -/
structure PipelineState where
  archived_file_count : Nat
  not_transferred : Nat
  archive : List String
  deletedPaths : List String
deriving Repr, DecidableEq

/-- Fold one candidate's outcome into the pipeline state. -/
def applyStep (st : PipelineState) (s : StepOutcome) : PipelineState :=
  { archived_file_count := st.archived_file_count + s.archivedDelta,
    not_transferred := st.not_transferred + s.notTransferredDelta,
    archive := st.archive ++ s.appendedEntries,
    deletedPaths := st.deletedPaths ++ s.deletedEntries }

/-- The candidate loop of `_archive_files_for_group` (runner.py lines
87-143), processing candidates one at a time in traversal order. -/
def pipelineLoop (group : Group) :
    List (FileCandidate × FileEnv) → PipelineState → PipelineState
  | [], st => st
  | (fl, env) :: rest, st =>
    pipelineLoop group rest (applyStep st (processCandidate group fl env))

/-- `_open_archive` (runner.py lines 291-298): tarfile.open(name, 'a')
creates the tar when absent and keeps the existing entries otherwise; it
never truncates. `existing` is the tar's content before the run (`none` when
the file does not exist). -/
def _open_archive (existing : Option (List String)) : List String :=
  existing.getD []

/-- Result of one `_archive_files_for_group` run (runner.py lines 72-158):
the counters, the templated tar path, and the observable file effects.
The Python method returns only archived_file_count; the other fields record
the state the run leaves behind. -/
structure PipelineResult where
  archived_file_count : Nat
  not_transferred : Nat
  tarfile_name : String
  archive : List String
  deletedPaths : List String
deriving Repr, DecidableEq

/-- `_archive_files_for_group` (runner.py lines 72-158): compute the tar
path, open the archive in append mode before evaluating any candidate, then
run the candidate loop. -/
def _archive_files_for_group (tarfile_base group_name : String)
    (group : Group) (files : List (FileCandidate × FileEnv))
    (tarBefore : Option (List String)) : PipelineResult :=
  let tarfile_name := _get_tarfile_name tarfile_base group_name
  let final := pipelineLoop group files
    { archived_file_count := 0, not_transferred := 0,
      archive := _open_archive tarBefore, deletedPaths := [] }
  { archived_file_count := final.archived_file_count,
    not_transferred := final.not_transferred,
    tarfile_name := tarfile_name,
    archive := final.archive,
    deletedPaths := final.deletedPaths }

/-- The tar file's content on disk after a pipeline run, as a function of its
content before the run: mode 'a' creates the file when absent, so the file
exists afterwards in every case. -/
def tarfileAfterRun (tarfile_base group_name : String) (group : Group)
    (files : List (FileCandidate × FileEnv))
    (tarBefore : Option (List String)) : Option (List String) :=
  some (_archive_files_for_group tarfile_base group_name group files
    tarBefore).archive

/- ### The run controller -/

/-- Constructor state of ArchiveRunner (runner.py lines 47-57). -/
structure ArchiveRunner where
  group_name : String
  base_dir : String
  force_archive : Bool
  logfile_base : String
  lockfile_base : String
  tarfile_base : String
deriving Repr, DecidableEq

/-- External observations one `run()` invocation makes: the current user,
the target-directory checks, the group lookup (`none` when grp.getgrnam
raises KeyError), whether the non-blocking process-lock acquire would
succeed, whether an exception escapes `_archive_files_for_group`, and the
traversal plus the tar file's prior content. -/
structure RunEnv where
  currentUser : String
  isRootDirectory : Bool
  directoryExists : Bool
  group : Option Group
  processLockAvailable : Bool
  pipelineRaises : Bool
  files : List (FileCandidate × FileEnv)
  tarfileBefore : Option (List String)
deriving Repr, DecidableEq

/-- Observable steps of `run()` after the fatal gates (runner.py lines
347-363), in execution order. -/
inductive Event where
  | beginArchive
  | unrecoverableError
  | releasedProcessLock
  | noFilesReport
  | archivingCompleted
deriving Repr, DecidableEq

/-- Result of `run()`: a fatal gate called sys.exit with a message, or the
method finished, with the ordered events after the gates and the final value
of archived_file_count (-1 when the pipeline raised). -/
inductive RunResult where
  | exited (msg : String)
  | finished (events : List Event) (archived_file_count : Int)
deriving Repr, DecidableEq

/-- The outcome report at the end of `run()` (runner.py lines 356-363):
count 0 logs the no-files error, anything else logs completion. -/
def reportOutcome (archived_file_count : Int) : Event :=
  if archived_file_count == 0 then Event.noFilesReport
  else Event.archivingCompleted

/-- `run()` (runner.py lines 324-363): the fatal gates in source order, then
the pipeline inside try/except Exception/finally where the finally releases
the process lock, then the outcome report. -/
def run (runner : ArchiveRunner) (env : RunEnv) : RunResult :=
  if !_current_user_has_permissions env.currentUser then
    RunResult.exited "Please run archy as root"
  else if env.isRootDirectory then
    RunResult.exited "Archy is not safe to run from the root directory"
  else if !env.directoryExists then
    RunResult.exited "Invalid directory"
  else
    match env.group with
    | none => RunResult.exited "Invalid group name"
    | some group =>
      if !(_acquire_process_lock runner.force_archive
            env.processLockAvailable).fst then
        RunResult.exited "Another archy process is already running for this group"
      else
        let pipeline : Except Unit Int :=
          if env.pipelineRaises then Except.error ()
          else Except.ok ((_archive_files_for_group runner.tarfile_base
            runner.group_name group env.files
            env.tarfileBefore).archived_file_count : Int)
        let archived_file_count : Int :=
          match pipeline with
          | Except.ok n => n
          | Except.error _ => -1
        let events : List Event :=
          [Event.beginArchive] ++
          (match pipeline with
           | Except.ok _ => []
           | Except.error _ => [Event.unrecoverableError]) ++
          [Event.releasedProcessLock] ++
          [reportOutcome archived_file_count]
        RunResult.finished events archived_file_count

/-- A concrete runner configuration, as in the repository's test suite. -/
def testRunner : ArchiveRunner :=
  { group_name := "notagroup", base_dir := "/tmp/archy-test",
    force_archive := false, logfile_base := "/tmp/archy-test.log",
    lockfile_base := "/tmp/archy-test.lock",
    tarfile_base := "/tmp/archy-%s.tar" }

/-- A concrete environment where every gate passes and an exception escapes
the pipeline. -/
def testEnvRaise : RunEnv :=
  { currentUser := "root", isRootDirectory := false, directoryExists := true,
    group := some { id := 1500, name := "notagroup", members := ["user1"] },
    processLockAvailable := true, pipelineRaises := true, files := [],
    tarfileBefore := none }

/- ## Claims -/

/-- C1: `_should_archive fl g` is true exactly when `fl` is a regular file
and either its owning group name equals `g.name`, or its owning user is a
member of `g.members` and its owning group name equals that user's own
name; in particular it is false for every non-regular-file candidate and for
a member-owned file whose group is neither `g.name` nor the owner's name. -/
theorem c1_should_archive_characterization (fl : FileCandidate) (g : Group) :
    _should_archive fl g = true ↔
      (fl.isFile = true ∧ (fl.groupName = g.name ∨
        (fl.owner ∈ g.members ∧ fl.groupName = fl.owner))) := by
  simp [_should_archive, Bool.and_eq_true, Bool.or_eq_true, beq_iff_eq,
    List.contains, List.elem_iff]
  tauto

/-- C2 counterexample: a directory (not a regular file) whose owning group
name equals the target group's name is not archived, so the claim fails as
stated, without the regular-file precondition. -/
theorem c2_group_owned_directory_not_archived :
    (FileCandidate.mk "/base/subdir" "user1" "grp1" false).groupName
        = (Group.mk 1500 "grp1" ["user1"]).name ∧
    _should_archive (FileCandidate.mk "/base/subdir" "user1" "grp1" false)
        (Group.mk 1500 "grp1" ["user1"]) = false := by
  decide

/-- C2 (amended): every regular-file candidate whose owning group name
equals `g.name` is archived. -/
theorem c2_group_file_is_archived (fl : FileCandidate) (g : Group)
    (hfile : fl.isFile = true) (hgrp : fl.groupName = g.name) :
    _should_archive fl g = true := by
  simp [_should_archive, hfile, hgrp]

/-- C2 witness: the amended statement at a concrete regular file. -/
theorem c2_group_file_is_archived_witness :
    (FileCandidate.mk "/base/a.txt" "user2" "grp1" true).isFile = true ∧
    _should_archive (FileCandidate.mk "/base/a.txt" "user2" "grp1" true)
        (Group.mk 1500 "grp1" ["user1"]) = true :=
  ⟨rfl, c2_group_file_is_archived _ _ rfl rfl⟩

/-- C7: force mode makes `_acquire_process_lock` report success while
self.lock stays None, and `_release_process_lock` is a no-op on that state;
after a failed non-forced acquisition the handle is unacquired, the
underlying fasteners release would raise, and `_release_process_lock` is
still a no-op because the error is caught. -/
theorem c7_force_and_release_noop :
    (∀ available : Bool,
      _acquire_process_lock true available = (true, ProcLockState.none)) ∧
    _release_process_lock ProcLockState.none = ProcLockState.none ∧
    _acquire_process_lock false false = (false, ProcLockState.unacquired) ∧
    fastenersRelease ProcLockState.unacquired = Except.error () ∧
    _release_process_lock ProcLockState.unacquired = ProcLockState.unacquired := by
  exact ⟨fun _ => rfl, rfl, rfl, rfl, rfl⟩

/-- C8 counterexample: a template holding two %s placeholders certainly
contains a string-substitution placeholder, yet each helper returns it
unchanged (the % application raises TypeError) instead of substituting the
group name. -/
theorem c8_two_placeholders_not_substituted :
    1 ≤ specifierCount ("%s-%s").data ∧
    _get_lockfile_name "%s-%s" "grp" = "%s-%s" ∧
    _get_logfile_name "%s-%s" "grp" = "%s-%s" ∧
    _get_tarfile_name "%s-%s" "grp" = "%s-%s" ∧
    String.mk (substAll ("%s-%s").data "grp") = "grp-grp" ∧
    ("%s-%s" : String) ≠ "grp-grp" := by
  decide

/-- C8 (amended): each path helper is the pure two-branch function that
substitutes the group name when the template contains exactly one
string-substitution placeholder, and returns the template unchanged
otherwise (no placeholder, or more than one). -/
theorem c8_path_helpers_two_branch (tmpl g : String) :
    _get_lockfile_name tmpl g
      = (if specifierCount tmpl.data = 1
          then String.mk (substAll tmpl.data g) else tmpl) ∧
    _get_logfile_name tmpl g
      = (if specifierCount tmpl.data = 1
          then String.mk (substAll tmpl.data g) else tmpl) ∧
    _get_tarfile_name tmpl g
      = (if specifierCount tmpl.data = 1
          then String.mk (substAll tmpl.data g) else tmpl) := by
  by_cases h : specifierCount tmpl.data = 1 <;>
    simp [_get_lockfile_name, _get_logfile_name, _get_tarfile_name,
      pyPercentFormat, h]

/-- C4: an eligible candidate whose per-file lock is not obtained within the
bounded wait (timeout 5) is neither appended to the archive nor deleted, the
not-transferred count rises by exactly one, and the loop continues with the
remaining candidates. -/
theorem c4_lock_busy_skip (g : Group) (fl : FileCandidate) (env : FileEnv)
    (st : PipelineState) (rest : List (FileCandidate × FileEnv))
    (hres : env.resolveRaises = false)
    (helig : _should_archive fl g = true)
    (hlock : env.lockAcquired = false) :
    FILELOCK_TIMEOUT = 5 ∧
    (processCandidate g fl env).appendedEntries = [] ∧
    (processCandidate g fl env).deletedEntries = [] ∧
    (processCandidate g fl env).archivedDelta = 0 ∧
    (processCandidate g fl env).notTransferredDelta = 1 ∧
    pipelineLoop g ((fl, env) :: rest) st
      = pipelineLoop g rest
          { st with not_transferred := st.not_transferred + 1 } := by
  have hpc : processCandidate g fl env
      = ⟨0, 1, [], [], false, false⟩ := by
    simp [processCandidate, hres, helig, hlock, _get_filelock]
  refine ⟨rfl, by rw [hpc], by rw [hpc], by rw [hpc], by rw [hpc], ?_⟩
  have h1 : pipelineLoop g ((fl, env) :: rest) st
      = pipelineLoop g rest (applyStep st (processCandidate g fl env)) := rfl
  rw [h1, hpc]
  congr 1
  cases st with
  | mk a n ar d => simp [applyStep]

/-- C4 witness: the lock-busy skip at a concrete eligible candidate. -/
theorem c4_lock_busy_skip_witness :
    _should_archive (FileCandidate.mk "/base/f.txt" "user1" "grp1" true)
        (Group.mk 1500 "grp1" ["user1"]) = true ∧
    (FILELOCK_TIMEOUT = 5 ∧
     (processCandidate (Group.mk 1500 "grp1" ["user1"])
        (FileCandidate.mk "/base/f.txt" "user1" "grp1" true)
        (FileEnv.mk false false false false)).appendedEntries = [] ∧
     (processCandidate (Group.mk 1500 "grp1" ["user1"])
        (FileCandidate.mk "/base/f.txt" "user1" "grp1" true)
        (FileEnv.mk false false false false)).deletedEntries = [] ∧
     (processCandidate (Group.mk 1500 "grp1" ["user1"])
        (FileCandidate.mk "/base/f.txt" "user1" "grp1" true)
        (FileEnv.mk false false false false)).archivedDelta = 0 ∧
     (processCandidate (Group.mk 1500 "grp1" ["user1"])
        (FileCandidate.mk "/base/f.txt" "user1" "grp1" true)
        (FileEnv.mk false false false false)).notTransferredDelta = 1 ∧
     pipelineLoop (Group.mk 1500 "grp1" ["user1"])
        [(FileCandidate.mk "/base/f.txt" "user1" "grp1" true,
          FileEnv.mk false false false false)]
        (PipelineState.mk 0 0 [] [])
       = pipelineLoop (Group.mk 1500 "grp1" ["user1"]) []
          { PipelineState.mk 0 0 [] [] with
            not_transferred := (PipelineState.mk 0 0 [] []).not_transferred + 1 }) :=
  ⟨by decide, c4_lock_busy_skip _ _ _ _ _ rfl (by decide) rfl⟩

/-- C5: for an eligible candidate whose lock was obtained, the file lock is
acquired and then released on every exit path of the append/delete unit;
when the append or the delete raises, the exception is caught per candidate
(not-transferred rises by one, nothing is counted archived, the file is not
deleted) and the loop continues with the remaining candidates. -/
theorem c5_per_file_error_isolation (g : Group) (fl : FileCandidate)
    (env : FileEnv) (st : PipelineState)
    (rest : List (FileCandidate × FileEnv))
    (hres : env.resolveRaises = false)
    (helig : _should_archive fl g = true)
    (hlock : env.lockAcquired = true) :
    (processCandidate g fl env).lockWasAcquired = true ∧
    (processCandidate g fl env).lockWasReleased = true ∧
    ((env.archiveRaises = true ∨ env.deleteRaises = true) →
      (processCandidate g fl env).notTransferredDelta = 1 ∧
      (processCandidate g fl env).archivedDelta = 0 ∧
      (processCandidate g fl env).deletedEntries = []) ∧
    pipelineLoop g ((fl, env) :: rest) st
      = pipelineLoop g rest (applyStep st (processCandidate g fl env)) := by
  refine ⟨?_, ?_, ?_, rfl⟩ <;>
    cases har : env.archiveRaises <;> cases hdr : env.deleteRaises <;>
      simp [processCandidate, hres, helig, hlock, _get_filelock, har, hdr]

/-- C5 witness: per-file isolation at a concrete candidate whose archive
append raises. -/
theorem c5_per_file_error_isolation_witness :
    _should_archive (FileCandidate.mk "/base/f.txt" "user1" "grp1" true)
        (Group.mk 1500 "grp1" ["user1"]) = true ∧
    ((processCandidate (Group.mk 1500 "grp1" ["user1"])
        (FileCandidate.mk "/base/f.txt" "user1" "grp1" true)
        (FileEnv.mk false true true false)).lockWasAcquired = true ∧
     (processCandidate (Group.mk 1500 "grp1" ["user1"])
        (FileCandidate.mk "/base/f.txt" "user1" "grp1" true)
        (FileEnv.mk false true true false)).lockWasReleased = true ∧
     (((FileEnv.mk false true true false).archiveRaises = true ∨
       (FileEnv.mk false true true false).deleteRaises = true) →
       (processCandidate (Group.mk 1500 "grp1" ["user1"])
          (FileCandidate.mk "/base/f.txt" "user1" "grp1" true)
          (FileEnv.mk false true true false)).notTransferredDelta = 1 ∧
       (processCandidate (Group.mk 1500 "grp1" ["user1"])
          (FileCandidate.mk "/base/f.txt" "user1" "grp1" true)
          (FileEnv.mk false true true false)).archivedDelta = 0 ∧
       (processCandidate (Group.mk 1500 "grp1" ["user1"])
          (FileCandidate.mk "/base/f.txt" "user1" "grp1" true)
          (FileEnv.mk false true true false)).deletedEntries = []) ∧
     pipelineLoop (Group.mk 1500 "grp1" ["user1"])
        [(FileCandidate.mk "/base/f.txt" "user1" "grp1" true,
          FileEnv.mk false true true false)]
        (PipelineState.mk 0 0 [] [])
       = pipelineLoop (Group.mk 1500 "grp1" ["user1"]) []
          (applyStep (PipelineState.mk 0 0 [] [])
            (processCandidate (Group.mk 1500 "grp1" ["user1"])
              (FileCandidate.mk "/base/f.txt" "user1" "grp1" true)
              (FileEnv.mk false true true false)))) :=
  ⟨by decide, c5_per_file_error_isolation _ _ _ _ _ rfl (by decide) rfl⟩

/-- C9 counterexample: a candidate the policy would reject (wrong owner and
wrong group) still increments the not-transferred count when resolving its
ownership raises, so "not transferred is reserved for eligible files" fails
as stated. -/
theorem c9_ineligible_candidate_counted :
    _should_archive (FileCandidate.mk "/base/g.txt" "someuser" "othergroup" true)
        (Group.mk 1500 "grp1" ["user1"]) = false ∧
    (processCandidate (Group.mk 1500 "grp1" ["user1"])
        (FileCandidate.mk "/base/g.txt" "someuser" "othergroup" true)
        (FileEnv.mk true true false false)).notTransferredDelta = 1 := by
  decide

/-- C9 (amended): both counters are nonnegative throughout, and a candidate
increments the not-transferred count exactly when resolving its ownership
raised, or it is eligible and failed to transfer (lock busy, append error,
or delete error); a candidate the policy evaluates and rejects is never
counted as not transferred. -/
theorem c9_count_invariants (tarfile_base group_name : String) (g : Group)
    (files : List (FileCandidate × FileEnv))
    (tarBefore : Option (List String))
    (fl : FileCandidate) (env : FileEnv) :
    0 ≤ ((_archive_files_for_group tarfile_base group_name g files
            tarBefore).archived_file_count : Int) ∧
    0 ≤ ((_archive_files_for_group tarfile_base group_name g files
            tarBefore).not_transferred : Int) ∧
    ((processCandidate g fl env).notTransferredDelta ≠ 0 ↔
      (env.resolveRaises = true ∨ (_should_archive fl g = true ∧
        (env.lockAcquired = false ∨ env.archiveRaises = true ∨
          env.deleteRaises = true)))) := by
  refine ⟨Int.natCast_nonneg _, Int.natCast_nonneg _, ?_⟩
  rcases env with ⟨rr, la, ar, dr⟩
  by_cases h : _should_archive fl g = true <;>
    cases rr <;> cases la <;> cases ar <;> cases dr <;>
      simp [processCandidate, _get_filelock, h]

/-- The candidate loop only appends entries to the open archive; it never
removes or rewrites the entries present when it started. -/
theorem pipelineLoop_archive_extends (g : Group)
    (files : List (FileCandidate × FileEnv)) (st : PipelineState) :
    ∃ new, (pipelineLoop g files st).archive = st.archive ++ new := by
  induction files generalizing st with
  | nil => exact ⟨[], (List.append_nil _).symm⟩
  | cons p rest ih =>
    obtain ⟨fl, env⟩ := p
    obtain ⟨new, hnew⟩ := ih (applyStep st (processCandidate g fl env))
    refine ⟨(processCandidate g fl env).appendedEntries ++ new, ?_⟩
    have h1 : pipelineLoop g ((fl, env) :: rest) st
        = pipelineLoop g rest (applyStep st (processCandidate g fl env)) := rfl
    rw [h1, hnew]
    simp [applyStep]

/-- C10: every pipeline run opens the tar at the templated path in append
mode before the candidate loop, so the tar exists after every run, its prior
entries are preserved as a prefix (never truncated or overwritten), and a
run over zero candidates leaves exactly the prior entries. -/
theorem c10_archive_append_only (tarfile_base group_name : String)
    (g : Group) (files : List (FileCandidate × FileEnv))
    (tarBefore : Option (List String)) :
    (_archive_files_for_group tarfile_base group_name g files
        tarBefore).tarfile_name = _get_tarfile_name tarfile_base group_name ∧
    tarfileAfterRun tarfile_base group_name g files tarBefore
      = some (_archive_files_for_group tarfile_base group_name g files
          tarBefore).archive ∧
    (∃ newEntries,
      (_archive_files_for_group tarfile_base group_name g files
          tarBefore).archive = _open_archive tarBefore ++ newEntries) ∧
    (_archive_files_for_group tarfile_base group_name g [] tarBefore).archive
      = _open_archive tarBefore := by
  exact ⟨rfl, rfl, pipelineLoop_archive_extends g files _, rfl⟩

/-- C3 counterexample: with every gate passed and an exception escaping the
pipeline, `run` finishes with the sentinel count -1 and logs the success
message (archivingCompleted), not the distinct no-files report — so the
sentinel is not treated like a genuine 0. -/
theorem c3_sentinel_reported_as_success :
    run testRunner testEnvRaise
      = RunResult.finished
          [Event.beginArchive, Event.unrecoverableError,
           Event.releasedProcessLock, Event.archivingCompleted] (-1) ∧
    Event.noFilesReport ∉
      ([Event.beginArchive, Event.unrecoverableError,
        Event.releasedProcessLock, Event.archivingCompleted] : List Event) := by
  decide

/-- C3 (amended): the final report distinguishes the two values: the
distinct no-files report is produced exactly for a genuine archived count of
0, any nonzero count — including the sentinel -1 left by a pipeline that did
not run to completion — is reported as success (archivingCompleted). -/
theorem c3_report_zero_vs_sentinel (runner : ArchiveRunner) (env : RunEnv)
    (g : Group) (evs : List Event) (c : Int)
    (hu : _current_user_has_permissions env.currentUser = true)
    (hroot : env.isRootDirectory = false)
    (hdir : env.directoryExists = true)
    (hg : env.group = some g)
    (hl : (_acquire_process_lock runner.force_archive
            env.processLockAvailable).fst = true)
    (hrun : run runner env = RunResult.finished evs c) :
    evs.getLast? = some (reportOutcome c) ∧
    (c = 0 → reportOutcome c = Event.noFilesReport) ∧
    (c ≠ 0 → reportOutcome c = Event.archivingCompleted) ∧
    (env.pipelineRaises = true →
      c = -1 ∧ reportOutcome c = Event.archivingCompleted) := by
  cases hpr : env.pipelineRaises with
  | false =>
    simp [run, hu, hroot, hdir, hg, hl, hpr] at hrun
    obtain ⟨hevs, hc⟩ := hrun
    subst hevs
    subst hc
    exact ⟨rfl, fun h => by simp [reportOutcome, h],
      fun h => by simp [reportOutcome, beq_iff_eq, h],
      fun h => absurd h (by decide)⟩
  | true =>
    simp [run, hu, hroot, hdir, hg, hl, hpr] at hrun
    obtain ⟨hevs, hc⟩ := hrun
    subst hevs
    subst hc
    exact ⟨by decide, fun h => absurd h (by decide), fun _ => by decide,
      fun _ => ⟨rfl, by decide⟩⟩

/-- C3 witness: the amended statement at the counterexample's input. -/
theorem c3_report_zero_vs_sentinel_witness :
    run testRunner testEnvRaise
      = RunResult.finished
          [Event.beginArchive, Event.unrecoverableError,
           Event.releasedProcessLock, Event.archivingCompleted] (-1) ∧
    (([Event.beginArchive, Event.unrecoverableError,
       Event.releasedProcessLock, Event.archivingCompleted] : List Event).getLast?
        = some (reportOutcome (-1)) ∧
     ((-1 : Int) = 0 → reportOutcome (-1) = Event.noFilesReport) ∧
     ((-1 : Int) ≠ 0 → reportOutcome (-1) = Event.archivingCompleted) ∧
     (testEnvRaise.pipelineRaises = true →
       (-1 : Int) = -1 ∧ reportOutcome (-1) = Event.archivingCompleted)) :=
  ⟨by decide,
   c3_report_zero_vs_sentinel testRunner testEnvRaise
     (Group.mk 1500 "notagroup" ["user1"])
     [Event.beginArchive, Event.unrecoverableError,
      Event.releasedProcessLock, Event.archivingCompleted] (-1)
     (by decide) rfl rfl rfl (by decide) (by decide)⟩

/-- C6: whenever the gates pass, the process-lock release step executes and
the outcome report comes only after it, and when an exception escapes the
pipeline it is caught — `run` still finishes, logs the unrecoverable error,
releases the process lock and reports the outcome. -/
theorem c6_release_before_report (runner : ArchiveRunner) (env : RunEnv)
    (g : Group)
    (hu : _current_user_has_permissions env.currentUser = true)
    (hroot : env.isRootDirectory = false)
    (hdir : env.directoryExists = true)
    (hg : env.group = some g)
    (hl : (_acquire_process_lock runner.force_archive
            env.processLockAvailable).fst = true) :
    (∃ pre c, run runner env
        = RunResult.finished
            (pre ++ [Event.releasedProcessLock, reportOutcome c]) c) ∧
    (env.pipelineRaises = true →
      run runner env = RunResult.finished
        [Event.beginArchive, Event.unrecoverableError,
         Event.releasedProcessLock, reportOutcome (-1)] (-1)) := by
  cases hpr : env.pipelineRaises with
  | false =>
    refine ⟨⟨[Event.beginArchive],
      ((_archive_files_for_group runner.tarfile_base runner.group_name g
          env.files env.tarfileBefore).archived_file_count : Int), ?_⟩,
      fun h => absurd h (by decide)⟩
    simp [run, hu, hroot, hdir, hg, hl, hpr]
  | true =>
    refine ⟨⟨[Event.beginArchive, Event.unrecoverableError], -1, ?_⟩,
      fun _ => ?_⟩
    · simp [run, hu, hroot, hdir, hg, hl, hpr]
    · simp [run, hu, hroot, hdir, hg, hl, hpr]

/-- C6 witness: release-before-report at a concrete run whose pipeline
raises. -/
theorem c6_release_before_report_witness :
    (∃ pre c,
      run testRunner testEnvRaise
        = RunResult.finished
            (pre ++ [Event.releasedProcessLock, reportOutcome c]) c) ∧
    (testEnvRaise.pipelineRaises = true →
      run testRunner testEnvRaise
        = RunResult.finished
            [Event.beginArchive, Event.unrecoverableError,
             Event.releasedProcessLock, reportOutcome (-1)] (-1)) :=
  c6_release_before_report testRunner testEnvRaise
    (Group.mk 1500 "notagroup" ["user1"])
    (by decide) rfl rfl rfl (by decide)

end Archy
